import Mathlib

/-!
Shallow embedding of the request-dispatch / response-normalization core of
`src/api/generate.js` (an image-generation endpoint).  The file in the
repository holds three near-duplicate revisions of the same endpoint,
separated by document markers:

  * revision 1 (lines   1-318): `handler` (if/else dispatch), `handleNanoBanana`,
    `handleImagen`, `handleUpscaling`, `saveImagesToStorage`, `vertexFetch`;
  * revision 2 (lines 318-648): same shape, Imagen 3 models, upscale disabled;
  * revision 3 (lines 648-878): `handler` (switch dispatch with a default
    validation error), `handleGeneration`, `handleUpscaling`, `saveImagesToStorage`.

We embed the functions the claims cite.  External effects are modelled as
explicit inputs: the single upstream HTTP call a handler makes is fed from a
`FetchOutcome` value; the blob-store uploads are fed from an `UploadEnv`
giving each upload slot its success/failure and public URL.  JavaScript
truthiness of the values actually used by the code (`undefined`, `""`, `0`,
`NaN`) is modelled explicitly by the `js*` helpers.
-/

/-- A reference image as supplied by the client: `{ base64Data, mimeType }`. -/
structure RefImage where
  base64Data : String
  mimeType : String
deriving DecidableEq, Repr

/-- The inbound JSON body, with each field optional exactly as in JS
(`undefined` is `none`).  `numImages` and `upscaleLevel` are modelled as the
result of JavaScript `parseInt` on the client value: `none` stands for `NaN`
(missing or non-numeric input), `some n` for a parsed integer. -/
structure Request where
  mode : Option String
  prompt : Option String
  images : Option (List RefImage)
  image : Option RefImage
  numImages : Option Int
  aspectRatio : Option String
  sampleImageSize : Option String
  upscaleLevel : Option Int
deriving DecidableEq, Repr

/-- JavaScript `a || d` for an optional string `a`: `undefined` and the empty
string are falsy. -/
def jsOrStr (a : Option String) (d : String) : String :=
  match a with
  | none => d
  | some s => if s = "" then d else s

/-- JavaScript `a || d` for a `parseInt` result `a`: `NaN` (`none`) and `0`
are falsy. -/
def jsOrInt (a : Option Int) (d : Int) : Int :=
  match a with
  | none => d
  | some n => if n = 0 then d else n

/-- JavaScript truthiness of an optional string (`if (s) ...`). -/
def jsTruthyStr (a : Option String) : Bool :=
  match a with
  | none => false
  | some s => s != ""

/-- String interpolation of a possibly-undefined value (template literal
applied to `mode` in revision 3's default branch). -/
def jsShowOpt (a : Option String) : String :=
  match a with
  | none => "undefined"
  | some s => s

/-- Accumulate the maximal run of leading decimal digits; `none` when no
digit has been seen yet. -/
def parseDigitsAux : List Char → Option Nat → Option Nat
  | [], acc => acc
  | c :: cs, acc =>
    if 47 < c.toNat ∧ c.toNat < 58 then parseDigitsAux cs (some ((acc.getD 0) * 10 + (c.toNat - 48)))
    else acc

/-- Model of JavaScript `parseInt` on the string inputs the code exercises:
an optional leading minus sign followed by the maximal run of leading
decimal digits; `none` stands for `NaN` (no digit found). -/
def jsParseInt (s : String) : Option Int :=
  match s.data with
  | [] => none
  | c :: cs =>
    if c.toNat = 45 then (parseDigitsAux cs none).map (fun n => -(n : Int))
    else (parseDigitsAux (c :: cs) none).map (fun n => (n : Int))

/-- One prediction entry of an Imagen `:predict` response. -/
structure ImagenPrediction where
  bytesBase64Encoded : String
deriving DecidableEq, Repr

/-- The parsed JSON body of an Imagen `:predict` response; `predictions` is
absent (`none`) when the provider returned no such field. -/
structure ImagenResponse where
  predictions : Option (List ImagenPrediction)
deriving DecidableEq, Repr

/-- Inline image data of a Gemini part: `{ data, mimeType }`. -/
structure InlineData where
  data : String
  mimeType : String
deriving DecidableEq, Repr

/-- One part of a Gemini candidate content: may carry inline image data
and/or text. -/
structure GeminiPart where
  inlineData : Option InlineData
  text : Option String
deriving DecidableEq, Repr

/-- The `content` object of a Gemini candidate; `parts` is optional, as the
source reads it with optional chaining (`content?.parts?`). -/
structure GeminiContent where
  parts : Option (List GeminiPart)
deriving DecidableEq, Repr

/-- One Gemini candidate. -/
structure GeminiCandidate where
  content : Option GeminiContent
deriving DecidableEq, Repr

/-- The parsed JSON body of a Gemini `:generateContent` response. -/
structure GeminiResponse where
  candidates : Option (List GeminiCandidate)
deriving DecidableEq, Repr

/-- Outcome of the one `fetch` a `vertexFetch` invocation performs, as seen
by the code: the promise rejected (`netError`), the response was non-2xx
(`httpError`, carrying the parsed `json.error.message` when the error body
parsed, plus the raw body text), the 2xx body failed to parse as JSON
(`badJson`), or a parsed body of the expected shape (`okJson`). -/
inductive FetchOutcome (α : Type) where
  | netError (message : String)
  | httpError (status : Nat) (errMessage : Option String) (bodyText : String)
  | badJson (message : String)
  | okJson (value : α)
deriving DecidableEq, Repr

/-- The error message `vertexFetch` builds for a non-2xx response
(revision 1): `Vertex AI Error (status): json.error?.message || text`. -/
def vertexErrorMessage (status : Nat) (errMessage : Option String) (bodyText : String) : String :=
  "Vertex AI Error (" ++ toString status ++ "): " ++ jsOrStr errMessage bodyText

/-- Embedding of `vertexFetch` (revision 1, `src/api/generate.js` lines
306-318): one `fetch`; a rejected fetch or an unparseable 2xx body throws
that error as-is, a non-2xx response throws the formatted Vertex error, and
a parsed 2xx body is returned.  There is no loop and no retry. -/
def vertexFetch {α : Type} : FetchOutcome α → Except String α
  | .netError m => .error m
  | .httpError status errMessage bodyText => .error (vertexErrorMessage status errMessage bodyText)
  | .badJson m => .error m
  | .okJson v => .ok v

/-- Attempt-counting wrapper around `vertexFetch`: `first` is the outcome
the provider gives the first attempt, `rest` the outcomes further attempts
would have received.  The source performs exactly one `fetch` per call, so
exactly the first outcome is consumed and the attempt count is 1. -/
def vertexFetchRun {α : Type} (first : FetchOutcome α) (_rest : List (FetchOutcome α)) :
    Except String α × Nat :=
  (vertexFetch first, 1)

/-- The client-facing record built per uploaded image
(`{ url, prompt, aspectRatio, size, mode }`). -/
structure Record where
  url : String
  prompt : Option String
  aspectRatio : Option String
  size : String
  mode : Option String
deriving DecidableEq, Repr

/-- The metadata object passed to `saveImagesToStorage`. -/
structure Metadata where
  prompt : Option String
  aspectRatio : Option String
  size : String
  mode : Option String
deriving DecidableEq, Repr

/-- Environment for the blob-store uploads: per upload slot `i`, whether
`file.save` succeeds, whether `file.makePublic` succeeds, the public URL
read back, and the message of the error thrown on failure. -/
structure UploadEnv where
  saveOk : Nat → Bool
  publicOk : Nat → Bool
  urlOf : Nat → String
  errMessage : Nat → String

/-- One upload of `saveImagesToStorage`: `file.save`, then `file.makePublic`,
then the record is built from the public URL and the metadata. -/
def uploadOne (env : UploadEnv) (md : Metadata) (i : Nat) : Except String Record :=
  if env.saveOk i then
    if env.publicOk i then
      .ok { url := env.urlOf i, prompt := md.prompt, aspectRatio := md.aspectRatio,
            size := md.size, mode := md.mode }
    else .error (env.errMessage i)
  else .error (env.errMessage i)

/-- `Promise.all` over the per-image uploads, starting at slot index `i`:
if any upload rejects, the whole aggregate rejects; otherwise all records
are returned in input order. -/
def uploadAll (env : UploadEnv) (md : Metadata) : Nat → List String → Except String (List Record)
  | _, [] => .ok []
  | i, _b :: bs =>
    match uploadOne env md i, uploadAll env md (i + 1) bs with
    | .ok r, .ok rs => .ok (r :: rs)
    | .error e, _ => .error e
    | .ok _, .error e => .error e

/-- Embedding of `saveImagesToStorage` (revision 1, lines 274-303): map each
base64 payload to an independent upload and join them with `Promise.all`. -/
def saveImagesToStorage (env : UploadEnv) (base64DataArray : List String) (md : Metadata) :
    Except String (List Record) :=
  uploadAll env md 0 base64DataArray

/-- Result of one dispatched handler: the number of provider HTTP calls it
issued, paired with the thrown error or the produced records. -/
abbrev HOut := Nat × Except String (List Record)

/-- The clamp applied to `numImages` in `handleImagen` (revision 1, lines
194-195) and `handleGeneration` (revision 3, lines 798-799):
`parseInt(numImages) || 1` followed by `Math.max(1, Math.min(·, 4))`. -/
def clampSampleCount (numImages : Option Int) : Int :=
  max 1 (min (jsOrInt numImages 1) 4)

/-- Size handling of `handleImagen` (revision 1, lines 201-210): returns the
`sampleImageSize` parameter sent to the provider and the `sizeLabel` placed
on the outbound record.  A hint of `"2048"` or `"4096"` yields the 2K tier
(the family ceiling); anything else yields 1K. -/
def imagenSize (sampleImageSize : Option String) : String × String :=
  if sampleImageSize = some "2048" ∨ sampleImageSize = some "4096" then ("2K", "2048x2048")
  else ("1K", "1024x1024")

/-- Size handling of `handleGeneration` (revision 3, lines 803-812): when
`sampleImageSize` is truthy, `parseInt(sampleImageSize) === 2048` selects the
2K tier and anything else (including `"4096"`) falls to the 1K branch; when
falsy, no size parameter is sent and the label stays `"1024x1024"`. -/
def generationSize (sampleImageSize : Option String) : Option String × String :=
  match sampleImageSize with
  | none => (none, "1024x1024")
  | some s =>
    if s = "" then (none, "1024x1024")
    else if jsParseInt s = some 2048 then (some "2K", "2048x2048")
    else (some "1K", "1024x1024")

/-- One instance of an Imagen `:predict` payload. -/
structure ImagenInstance where
  prompt : Option String
  imageBytesBase64 : Option String
deriving DecidableEq, Repr

/-- The `parameters` object of an Imagen `:predict` payload. -/
structure ImagenParameters where
  sampleCount : Int
  sampleImageSize : Option String
  aspectRatio : Option String
deriving DecidableEq, Repr

/-- An Imagen `:predict` payload. -/
structure ImagenPayload where
  instances : List ImagenInstance
  parameters : ImagenParameters
deriving DecidableEq, Repr

/-- The payload `handleImagen` (revision 1, lines 186-214) sends: one
instance with the prompt and the first reference image when present;
`sampleCount` clamped into 1..4; the size tier from `imagenSize`;
`aspectRatio` only when truthy. -/
def imagenPayload (body : Request) : ImagenPayload :=
  { instances := [{ prompt := body.prompt,
                    imageBytesBase64 :=
                      match body.images with
                      | some (img :: _) => some img.base64Data
                      | _ => none }],
    parameters := { sampleCount := clampSampleCount body.numImages,
                    sampleImageSize := some (imagenSize body.sampleImageSize).1,
                    aspectRatio := if jsTruthyStr body.aspectRatio then body.aspectRatio else none } }

/-- The payload `handleGeneration` (revision 3, lines 793-813) sends: one
instance with the prompt and the single `image` when it carries truthy
base64 data; `sampleCount` clamped into 1..4; the size tier from
`generationSize`; `aspectRatio` only when truthy. -/
def generationPayload (body : Request) : ImagenPayload :=
  { instances := [{ prompt := body.prompt,
                    imageBytesBase64 :=
                      match body.image with
                      | some img => if img.base64Data = "" then none else some img.base64Data
                      | none => none }],
    parameters := { sampleCount := clampSampleCount body.numImages,
                    sampleImageSize := (generationSize body.sampleImageSize).1,
                    aspectRatio := if jsTruthyStr body.aspectRatio then body.aspectRatio else none } }

/-- Embedding of `handleImagen` (revision 1, lines 180-232): one provider
call; a missing `predictions` field throws; otherwise every prediction's
base64 payload is persisted and echoed with the client's prompt, the raw
`aspectRatio`, the size label from `imagenSize`, and the raw `mode`. -/
def handleImagen (env : UploadEnv) (oracle : FetchOutcome ImagenResponse) (body : Request) : HOut :=
  let sizeLabel := (imagenSize body.sampleImageSize).2
  (1, match vertexFetch oracle with
      | .error e => .error e
      | .ok result =>
        match result.predictions with
        | none => .error "Imagen API 未回傳預測結果"
        | some preds =>
          saveImagesToStorage env (preds.map ImagenPrediction.bytesBase64Encoded)
            { prompt := body.prompt, aspectRatio := body.aspectRatio,
              size := sizeLabel, mode := body.mode })

/-- JavaScript truthiness of `p.inlineData` in `find(p => p.inlineData)`
(an object is truthy whenever present). -/
def geminiHasInline (p : GeminiPart) : Bool :=
  p.inlineData.isSome

/-- JavaScript truthiness of `p.text` in `find(p => p.text)` (the empty
string is falsy). -/
def geminiHasText (p : GeminiPart) : Bool :=
  match p.text with
  | none => false
  | some s => s != ""

/-- The parts list of the first candidate as the source reads it
(`candidates[0].content?.parts?` collapses to an empty search when either
link is undefined). -/
def geminiParts (c : GeminiCandidate) : List GeminiPart :=
  (c.content.bind GeminiContent.parts).getD []

/-- Embedding of `handleNanoBanana` (revision 1, lines 103-173): one
provider call; missing or empty `candidates` throws; a candidate with no
inline-data part throws — with the full text of the first truthy text part
interpolated into the message when one exists — and otherwise the single
image is persisted with the display-size label. -/
def handleNanoBanana (env : UploadEnv) (oracle : FetchOutcome GeminiResponse) (body : Request) : HOut :=
  let targetImageSize : Option String :=
    if body.sampleImageSize = some "4096" then some "4K"
    else if body.sampleImageSize = some "2048" then some "2K"
    else none
  let targetAspectRatio := jsOrStr body.aspectRatio "1:1"
  (1, match vertexFetch oracle with
      | .error e => .error e
      | .ok result =>
        match result.candidates with
        | none => .error "Gemini 未回傳候選結果"
        | some [] => .error "Gemini 未回傳候選結果"
        | some (c :: _) =>
          let parts := geminiParts c
          match parts.find? geminiHasInline with
          | none =>
            match parts.find? geminiHasText with
            | some tp => .error ("Gemini 回傳了文字而非圖片: " ++ (GeminiPart.text tp).getD "")
            | none => .error "Gemini 未生成圖片資料"
          | some ip =>
            let base64Image := ((GeminiPart.inlineData ip).map InlineData.data).getD ""
            let displaySize :=
              if targetImageSize = some "2K" then "2K"
              else if targetImageSize = some "4K" then "4K"
              else "1K (Default)"
            saveImagesToStorage env [base64Image]
              { prompt := body.prompt, aspectRatio := some targetAspectRatio,
                size := displaySize, mode := some "generate-nanobanana" })

/-- First prediction's base64 payload as the source reads it
(`result.predictions?.[0]?.bytesBase64Encoded`, then rejected when falsy:
undefined or the empty string). -/
def imagenFirstBytes (result : ImagenResponse) : Option String :=
  match result.predictions with
  | none => none
  | some preds =>
    match preds.head? with
    | none => none
    | some p => if p.bytesBase64Encoded = "" then none else some p.bytesBase64Encoded

/-- One instance of the upscale `:predict` payload. -/
structure UpscaleInstance where
  prompt : String
  imageBytesBase64 : String
deriving DecidableEq, Repr

/-- The `parameters` object of the upscale `:predict` payload. -/
structure UpscaleParameters where
  sampleCount : Int
  mode : String
  upscaleFactor : String
deriving DecidableEq, Repr

/-- The upscale `:predict` payload. -/
structure UpscalePayload where
  instances : List UpscaleInstance
  parameters : UpscaleParameters
deriving DecidableEq, Repr

/-- The payload `handleUpscaling` (revision 1, lines 244-254) sends once a
reference image is present: `prompt || " "`, the first image's bytes, a
fixed `sampleCount` of 1, upscale mode, and the factor tier selected by the
2048 threshold on `parseInt(upscaleLevel) || 2048`. -/
def upscalePayload (body : Request) : Option UpscalePayload :=
  let targetSize := jsOrInt body.upscaleLevel 2048
  let factor := if targetSize > 2048 then "x4" else "x2"
  match body.images with
  | some (img :: _) =>
    some { instances := [{ prompt := jsOrStr body.prompt " ", imageBytesBase64 := img.base64Data }],
           parameters := { sampleCount := 1, mode := "upscale", upscaleFactor := factor } }
  | _ => none

/-- Embedding of `handleUpscaling` (revision 1, lines 235-271): a missing or
empty `images` array throws before the provider call; otherwise one call is
made, a falsy first prediction throws, and the upscaled image is persisted
with the fixed prompt "Upscaled Image" and the fixed aspect label
"Original". -/
def handleUpscaling (env : UploadEnv) (oracle : FetchOutcome ImagenResponse) (body : Request) : HOut :=
  let targetSize := jsOrInt body.upscaleLevel 2048
  match body.images with
  | none => (0, .error "缺少用於放大的圖片")
  | some [] => (0, .error "缺少用於放大的圖片")
  | some (_ :: _) =>
    (1, match vertexFetch oracle with
        | .error e => .error e
        | .ok result =>
          match imagenFirstBytes result with
          | none => .error "放大失敗，API 未回傳圖片"
          | some b =>
            saveImagesToStorage env [b]
              { prompt := some "Upscaled Image", aspectRatio := some "Original",
                size := toString targetSize ++ "px (Upscaled)", mode := some "upscale" })

/-- Embedding of `handleGeneration` (revision 3, lines 786-831): the Imagen
generation path of the switch-based revision; identical control flow to
`handleImagen` up to the `generationSize` size handling and the singular
`image` field. -/
def handleGeneration (env : UploadEnv) (oracle : FetchOutcome ImagenResponse) (body : Request) : HOut :=
  let sizeLabel := (generationSize body.sampleImageSize).2
  (1, match vertexFetch oracle with
      | .error e => .error e
      | .ok result =>
        match result.predictions with
        | none => .error "API 未回傳預測結果"
        | some preds =>
          saveImagesToStorage env (preds.map ImagenPrediction.bytesBase64Encoded)
            { prompt := body.prompt, aspectRatio := body.aspectRatio,
              size := sizeLabel, mode := body.mode })

/-- Embedding of `handleUpscaling` (revision 3, lines 833-869): a missing
`image` or falsy `base64Data` throws before the provider call; otherwise one
call, a falsy first prediction throws, and the upscaled image is persisted
with the same fixed prompt and aspect labels as revision 1. -/
def handleUpscalingSwitch (env : UploadEnv) (oracle : FetchOutcome ImagenResponse) (body : Request) : HOut :=
  let targetSize := jsOrInt body.upscaleLevel 2048
  match body.image with
  | none => (0, .error "缺少圖片")
  | some img =>
    if img.base64Data = "" then (0, .error "缺少圖片")
    else
      (1, match vertexFetch oracle with
          | .error e => .error e
          | .ok result =>
            match imagenFirstBytes result with
            | none => .error "放大失敗"
            | some b =>
              saveImagesToStorage env [b]
                { prompt := some "Upscaled Image", aspectRatio := some "Original",
                  size := toString targetSize ++ "px (Upscaled)", mode := some "upscale" })

/-- The mode dispatch of revision 1's `handler` (lines 77-87): strict
equality against two mode strings, with every other value — recognized or
not — falling through to `handleImagen`. -/
def dispatchIfElse (env : UploadEnv) (gOracle : FetchOutcome GeminiResponse)
    (iOracle : FetchOutcome ImagenResponse) (body : Request) : HOut :=
  if body.mode = some "generate-nanobanana" then handleNanoBanana env gOracle body
  else if body.mode = some "upscale" then handleUpscaling env iOracle body
  else handleImagen env iOracle body

/-- The mode dispatch of revision 3's `handler` (lines 729-740): a switch
whose default branch throws a validation error interpolating the mode, so no
provider call is made for an unrecognized mode. -/
def dispatchSwitch (env : UploadEnv) (iOracle : FetchOutcome ImagenResponse) (body : Request) : HOut :=
  if body.mode = some "upscale" then handleUpscalingSwitch env iOracle body
  else if body.mode = some "generate-default" ∨ body.mode = some "generate-fast" ∨
          body.mode = some "generate-ultra" then handleGeneration env iOracle body
  else (0, .error ("無效的模式 (mode): " ++ jsShowOpt body.mode))

/-- Inbound HTTP method as seen by the handler. -/
inductive HttpMethod where
  | OPTIONS
  | POST
  | GET
  | other
deriving DecidableEq, Repr

/-- The response the endpoint sends. -/
inductive HandlerResponse where
  | options200
  | methodNotAllowed405
  | ok200 (images : List Record)
  | err500 (message : String)
deriving DecidableEq, Repr

/-- Embedding of revision 1's `handler` (lines 45-100): OPTIONS preflight,
405 for non-POST, then dispatch; a thrown error is caught and serialized as
a 500 with the error's message, a produced record list as
`200 { images }`.  Declared content length is never inspected. -/
def handlerIfElse (env : UploadEnv) (gOracle : FetchOutcome GeminiResponse)
    (iOracle : FetchOutcome ImagenResponse) (method : HttpMethod) (body : Request) :
    HandlerResponse :=
  match method with
  | .OPTIONS => .options200
  | .POST =>
    match (dispatchIfElse env gOracle iOracle body).2 with
    | .ok recs => .ok200 recs
    | .error m => .err500 m
  | _ => .methodNotAllowed405

/-- Embedding of revision 3's `handler` (lines 688-752): same transport
shell around the switch dispatch. -/
def handlerSwitch (env : UploadEnv) (iOracle : FetchOutcome ImagenResponse)
    (method : HttpMethod) (body : Request) : HandlerResponse :=
  match method with
  | .OPTIONS => .options200
  | .POST =>
    match (dispatchSwitch env iOracle body).2 with
    | .ok recs => .ok200 recs
    | .error m => .err500 m
  | _ => .methodNotAllowed405

/-- The status the transport shell itself issues before reading or
dispatching the body (revision 1, lines 55-63): 200 for an OPTIONS
preflight, 405 for any non-POST method, and nothing (continue into
token/dispatch) for POST.  The declared content length is an input the code
never inspects — no size check exists anywhere in the handler. -/
def gatewayEarlyStatus (method : HttpMethod) (_declaredContentLength : Nat) : Option Nat :=
  match method with
  | .OPTIONS => some 200
  | .POST => none
  | _ => some 405

/-!
Helper lemmas about the upload aggregate and the dispatch shells, shared by
several claim theorems below.
-/

/-- Fields of a successfully built record come verbatim from the metadata. -/
theorem uploadOne_ok_fields (env : UploadEnv) (md : Metadata) (i : Nat) (r : Record)
    (h : uploadOne env md i = Except.ok r) :
    r.prompt = md.prompt ∧ r.aspectRatio = md.aspectRatio ∧ r.size = md.size ∧ r.mode = md.mode := by
  unfold uploadOne at h
  split_ifs at h
  cases h
  exact ⟨rfl, rfl, rfl, rfl⟩

/-- A successful `Promise.all` returns one record per input image. -/
theorem uploadAll_ok_length (env : UploadEnv) (md : Metadata) :
    ∀ (bs : List String) (i : Nat) (recs : List Record),
      uploadAll env md i bs = Except.ok recs → recs.length = bs.length := by
  intro bs
  induction bs with
  | nil =>
    intro i recs h
    simp only [uploadAll] at h
    cases h
    rfl
  | cons b bs ih =>
    intro i recs h
    simp only [uploadAll] at h
    cases h1 : uploadOne env md i with
    | error e => rw [h1] at h; cases h
    | ok r =>
      cases h2 : uploadAll env md (i + 1) bs with
      | error e => rw [h1, h2] at h; cases h
      | ok rs =>
        rw [h1, h2] at h
        cases h
        simp [ih (i + 1) rs h2]

/-- Every record of a successful `Promise.all` carries the metadata fields. -/
theorem uploadAll_ok_fields (env : UploadEnv) (md : Metadata) :
    ∀ (bs : List String) (i : Nat) (recs : List Record),
      uploadAll env md i bs = Except.ok recs →
      ∀ r ∈ recs, r.prompt = md.prompt ∧ r.aspectRatio = md.aspectRatio ∧
        r.size = md.size ∧ r.mode = md.mode := by
  intro bs
  induction bs with
  | nil =>
    intro i recs h
    simp only [uploadAll] at h
    cases h
    intro r hr
    cases hr
  | cons b bs ih =>
    intro i recs h
    simp only [uploadAll] at h
    cases h1 : uploadOne env md i with
    | error e => rw [h1] at h; cases h
    | ok r =>
      cases h2 : uploadAll env md (i + 1) bs with
      | error e => rw [h1, h2] at h; cases h
      | ok rs =>
        rw [h1, h2] at h
        cases h
        intro x hx
        rcases List.mem_cons.mp hx with hx | hx
        · subst hx
          exact uploadOne_ok_fields env md i x h1
        · exact ih (i + 1) rs h2 x hx

/-- If any single upload slot fails, the aggregate rejects. -/
theorem uploadAll_error_of_fail (env : UploadEnv) (md : Metadata) :
    ∀ (bs : List String) (i j : Nat), j < bs.length →
      (env.saveOk (i + j) = false ∨ env.publicOk (i + j) = false) →
      ∃ e, uploadAll env md i bs = Except.error e := by
  intro bs
  induction bs with
  | nil =>
    intro i j hj
    exact absurd hj (by simp)
  | cons b bs ih =>
    intro i j hj hfail
    cases j with
    | zero =>
      have hone : ∃ e, uploadOne env md i = Except.error e := by
        rcases hfail with h | h
        · exact ⟨env.errMessage i, by simp only [Nat.add_zero] at h; simp [uploadOne, h]⟩
        · simp only [Nat.add_zero] at h
          cases hs : env.saveOk i
          · exact ⟨env.errMessage i, by simp [uploadOne, hs]⟩
          · exact ⟨env.errMessage i, by simp [uploadOne, hs, h]⟩
      obtain ⟨e, he⟩ := hone
      exact ⟨e, by simp only [uploadAll, he]⟩
    | succ j =>
      have harith : i + (j + 1) = (i + 1) + j := by omega
      rw [harith] at hfail
      have hlen : j < bs.length := by simpa using hj
      cases h1 : uploadOne env md i with
      | error e => exact ⟨e, by simp only [uploadAll, h1]⟩
      | ok r =>
        obtain ⟨e, he⟩ := ih (i + 1) j hlen hfail
        exact ⟨e, by simp only [uploadAll, h1, he]⟩

/-- A POST reaching the try block answers from the dispatch outcome: records
as a 200, a thrown message as a 500. -/
theorem handlerIfElse_post (env : UploadEnv) (gOracle : FetchOutcome GeminiResponse)
    (iOracle : FetchOutcome ImagenResponse) (body : Request) :
    handlerIfElse env gOracle iOracle HttpMethod.POST body =
      match (dispatchIfElse env gOracle iOracle body).2 with
      | .ok recs => .ok200 recs
      | .error m => .err500 m := rfl

/-- Switch-revision analogue of `handlerIfElse_post`. -/
theorem handlerSwitch_post (env : UploadEnv) (iOracle : FetchOutcome ImagenResponse)
    (body : Request) :
    handlerSwitch env iOracle HttpMethod.POST body =
      match (dispatchSwitch env iOracle body).2 with
      | .ok recs => .ok200 recs
      | .error m => .err500 m := rfl

/-- Any mode other than the two matched strings falls through to
`handleImagen` in the if/else revision. -/
theorem dispatchIfElse_default (env : UploadEnv) (gOracle : FetchOutcome GeminiResponse)
    (iOracle : FetchOutcome ImagenResponse) (body : Request)
    (h1 : body.mode ≠ some "generate-nanobanana") (h2 : body.mode ≠ some "upscale") :
    dispatchIfElse env gOracle iOracle body = handleImagen env iOracle body := by
  simp [dispatchIfElse, h1, h2]

/-- Behaviour of `handleImagen` on a parsed 2xx provider body. -/
theorem handleImagen_okJson (env : UploadEnv) (resp : ImagenResponse) (body : Request) :
    (handleImagen env (FetchOutcome.okJson resp) body).2 =
      match resp.predictions with
      | none => Except.error "Imagen API 未回傳預測結果"
      | some preds =>
        saveImagesToStorage env (preds.map ImagenPrediction.bytesBase64Encoded)
          { prompt := body.prompt, aspectRatio := body.aspectRatio,
            size := (imagenSize body.sampleImageSize).2, mode := body.mode } := rfl

/-- Behaviour of `handleGeneration` on a parsed 2xx provider body. -/
theorem handleGeneration_okJson (env : UploadEnv) (resp : ImagenResponse) (body : Request) :
    (handleGeneration env (FetchOutcome.okJson resp) body).2 =
      match resp.predictions with
      | none => Except.error "API 未回傳預測結果"
      | some preds =>
        saveImagesToStorage env (preds.map ImagenPrediction.bytesBase64Encoded)
          { prompt := body.prompt, aspectRatio := body.aspectRatio,
            size := (generationSize body.sampleImageSize).2, mode := body.mode } := rfl

/-- Behaviour of `handleUpscaling` once a reference image is present. -/
theorem handleUpscaling_someImage (env : UploadEnv) (oracle : FetchOutcome ImagenResponse)
    (body : Request) (img : RefImage) (rest : List RefImage)
    (hbi : body.images = some (img :: rest)) :
    handleUpscaling env oracle body =
      (1, match vertexFetch oracle with
          | .error e => .error e
          | .ok result =>
            match imagenFirstBytes result with
            | none => .error "放大失敗，API 未回傳圖片"
            | some b =>
              saveImagesToStorage env [b]
                { prompt := some "Upscaled Image", aspectRatio := some "Original",
                  size := toString (jsOrInt body.upscaleLevel 2048) ++ "px (Upscaled)",
                  mode := some "upscale" }) := by
  unfold handleUpscaling
  rw [hbi]

/-- Behaviour of revision 3's upscale handler once a truthy image is present. -/
theorem handleUpscalingSwitch_someImage (env : UploadEnv) (oracle : FetchOutcome ImagenResponse)
    (body : Request) (img : RefImage) (hbi : body.image = some img)
    (hb64 : img.base64Data ≠ "") :
    handleUpscalingSwitch env oracle body =
      (1, match vertexFetch oracle with
          | .error e => .error e
          | .ok result =>
            match imagenFirstBytes result with
            | none => .error "放大失敗"
            | some b =>
              saveImagesToStorage env [b]
                { prompt := some "Upscaled Image", aspectRatio := some "Original",
                  size := toString (jsOrInt body.upscaleLevel 2048) ++ "px (Upscaled)",
                  mode := some "upscale" }) := by
  unfold handleUpscalingSwitch
  rw [hbi]
  simp [hb64]

/-!
Concrete fixtures used by counterexamples and witnesses.
-/

/-- Upload environment in which every upload succeeds. -/
def envOk : UploadEnv :=
  { saveOk := fun _ => true, publicOk := fun _ => true,
    urlOf := fun _ => "https://storage.example/u", errMessage := fun _ => "upload failed" }

/-- Upload environment in which only slot 0 succeeds. -/
def envFailSlot1 : UploadEnv :=
  { saveOk := fun i => i == 0, publicOk := fun _ => true,
    urlOf := fun _ => "https://storage.example/u", errMessage := fun _ => "storage write failed" }

/-- Gemini oracle for runs that never reach the Gemini endpoint. -/
def gUnused : FetchOutcome GeminiResponse := .netError "unused"

/-- Imagen response whose `predictions` field is present but empty. -/
def emptyPredResponse : ImagenResponse := { predictions := some [] }

/-- Imagen response with a single prediction. -/
def onePredResponse : ImagenResponse := { predictions := some [{ bytesBase64Encoded := "QUJD" }] }

/-- A well-formed generation request routed to the Imagen path. -/
def bodyDefaultGen : Request :=
  { mode := some "generate-default", prompt := some "a red cube", images := none, image := none,
    numImages := some 2, aspectRatio := none, sampleImageSize := none, upscaleLevel := none }

/-- A request whose mode matches none of the recognized values. -/
def bodyBogusMode : Request :=
  { mode := some "generate-banana", prompt := some "a cat", images := none, image := none,
    numImages := none, aspectRatio := none, sampleImageSize := none, upscaleLevel := none }

/-- A transport failure: non-2xx upstream status with a parsed error body. -/
def transportFail : FetchOutcome ImagenResponse := .httpError 500 (some "quota exceeded") "raw body"

/-- A transport failure whose error body did not parse as JSON. -/
def transportFailRaw : FetchOutcome ImagenResponse := .httpError 503 none "overloaded"

/-!
Claim C1.
-/

/-- Claim C1, counterexample.  The claim says a 200 success never carries an
empty `images` array.  But when the provider returns a well-formed body whose
`predictions` field is present and empty — zero images produced — revision
1's `handleImagen` passes the `!result.predictions` guard (an empty array is
truthy in JavaScript), maps zero predictions to zero uploads, and the
handler answers `200 { images: [] }`. -/
theorem c1_counterexample :
    handlerIfElse envOk gUnused (FetchOutcome.okJson emptyPredResponse) HttpMethod.POST
      bodyDefaultGen = HandlerResponse.ok200 [] := rfl

/-- Claim C1, amended.  On the Imagen path, a missing `predictions` field is
reported as a 500 failure, and a 200 response carries exactly one record per
prediction the provider returned — so a provider body with an empty
`predictions` array yields a 200 with an empty `images` array, and the
record count equals (rather than being bounded below by 1) the number of
images the provider produced. -/
theorem c1_amended (env : UploadEnv) (gOracle : FetchOutcome GeminiResponse)
    (iOracle : FetchOutcome ImagenResponse) (body : Request)
    (h1 : body.mode ≠ some "generate-nanobanana") (h2 : body.mode ≠ some "upscale") :
    (∀ resp : ImagenResponse, iOracle = FetchOutcome.okJson resp → resp.predictions = none →
      handlerIfElse env gOracle iOracle HttpMethod.POST body
        = HandlerResponse.err500 "Imagen API 未回傳預測結果") ∧
    (∀ (resp : ImagenResponse) (preds : List ImagenPrediction) (recs : List Record),
      iOracle = FetchOutcome.okJson resp → resp.predictions = some preds →
      handlerIfElse env gOracle iOracle HttpMethod.POST body = HandlerResponse.ok200 recs →
      recs.length = preds.length) := by
  constructor
  · intro resp hi hp
    subst hi
    rw [handlerIfElse_post, dispatchIfElse_default env gOracle _ body h1 h2,
      handleImagen_okJson, hp]
  · intro resp preds recs hi hp hrun
    subst hi
    rw [handlerIfElse_post, dispatchIfElse_default env gOracle _ body h1 h2,
      handleImagen_okJson, hp] at hrun
    dsimp only at hrun
    cases hsave : saveImagesToStorage env (preds.map ImagenPrediction.bytesBase64Encoded)
        { prompt := body.prompt, aspectRatio := body.aspectRatio,
          size := (imagenSize body.sampleImageSize).2, mode := body.mode } with
    | error e => rw [hsave] at hrun; cases hrun
    | ok rs =>
      rw [hsave] at hrun
      cases hrun
      have := uploadAll_ok_length env _ _ 0 recs hsave
      simpa using this

/-- Claim C1, witness for the amended theorem: a provider body without a
`predictions` field surfaces as the 500 failure. -/
theorem c1_witness :
    handlerIfElse envOk gUnused (FetchOutcome.okJson { predictions := none }) HttpMethod.POST
      bodyDefaultGen = HandlerResponse.err500 "Imagen API 未回傳預測結果" :=
  (c1_amended envOk gUnused (FetchOutcome.okJson { predictions := none }) bodyDefaultGen
    (by decide) (by decide)).1 { predictions := none } rfl rfl

/-!
Claim C2.
-/

/-- Claim C2, counterexample.  The claim says an unrecognized mode fails
with a validation error before any provider call.  In revision 1's if/else
dispatch the mode `"generate-banana"` matches neither branch and falls
through to `handleImagen`, which issues one provider call (count 1) and,
with a successful provider body, even completes as a 200 success. -/
theorem c2_counterexample :
    (dispatchIfElse envOk gUnused (FetchOutcome.okJson onePredResponse) bodyBogusMode).1 = 1 ∧
    handlerIfElse envOk gUnused (FetchOutcome.okJson onePredResponse) HttpMethod.POST bodyBogusMode
      = HandlerResponse.ok200
          [{ url := "https://storage.example/u", prompt := some "a cat", aspectRatio := none,
             size := "1024x1024", mode := some "generate-banana" }] :=
  ⟨rfl, rfl⟩

/-- Claim C2, amended.  Only the switch-based revision validates the mode:
there, any value outside the four recognized modes is rejected with the
validation error, zero provider calls are made, and the handler answers 500;
the if/else revision instead routes unrecognized modes to the Imagen
handler. -/
theorem c2_amended (env : UploadEnv) (iOracle : FetchOutcome ImagenResponse) (body : Request)
    (h1 : body.mode ≠ some "upscale") (h2 : body.mode ≠ some "generate-default")
    (h3 : body.mode ≠ some "generate-fast") (h4 : body.mode ≠ some "generate-ultra") :
    dispatchSwitch env iOracle body
      = (0, Except.error ("無效的模式 (mode): " ++ jsShowOpt body.mode)) ∧
    handlerSwitch env iOracle HttpMethod.POST body
      = HandlerResponse.err500 ("無效的模式 (mode): " ++ jsShowOpt body.mode) := by
  have hd : dispatchSwitch env iOracle body
      = (0, Except.error ("無效的模式 (mode): " ++ jsShowOpt body.mode)) := by
    simp [dispatchSwitch, h1, h2, h3, h4]
  refine ⟨hd, ?_⟩
  rw [handlerSwitch_post, hd]

/-- Claim C2, witness for the amended theorem at the concrete unrecognized
mode `"generate-banana"`. -/
theorem c2_witness :
    handlerSwitch envOk (FetchOutcome.okJson onePredResponse) HttpMethod.POST bodyBogusMode
      = HandlerResponse.err500 ("無效的模式 (mode): " ++ jsShowOpt bodyBogusMode.mode) :=
  (c2_amended envOk (FetchOutcome.okJson onePredResponse) bodyBogusMode
    (by decide) (by decide) (by decide) (by decide)).2

/-!
Claim C3.
-/

/-- Claim C3, counterexample.  The claim says a call whose every attempt is
a transport failure consumes exactly 3 attempts and then yields a per-slot
failure instead of aborting the request.  `vertexFetch` performs exactly one
fetch — the attempt count on an all-failing oracle is 1, not 3 — and the
thrown transport error propagates out of the dispatched handler, aborting
the whole request as a 500. -/
theorem c3_counterexample :
    (vertexFetchRun transportFail [transportFail, transportFail]).2 = 1 ∧
    (vertexFetchRun transportFail [transportFail, transportFail]).2 ≠ 3 ∧
    handlerIfElse envOk gUnused transportFail HttpMethod.POST bodyDefaultGen
      = HandlerResponse.err500 "Vertex AI Error (500): quota exceeded" :=
  ⟨rfl, by decide, rfl⟩

/-- Claim C3, amended.  Every dispatched provider call performs exactly one
attempt, whatever outcomes further attempts would have received; and a
transport failure (here a non-2xx status) is not absorbed as a per-slot
failure but thrown, so the whole request answers 500 with the formatted
transport error.  A refusal equally consumes the single attempt. -/
theorem c3_amended (first : FetchOutcome ImagenResponse)
    (rest : List (FetchOutcome ImagenResponse)) (env : UploadEnv)
    (gOracle : FetchOutcome GeminiResponse) (body : Request)
    (h1 : body.mode ≠ some "generate-nanobanana") (h2 : body.mode ≠ some "upscale")
    (status : Nat) (errMessage : Option String) (bodyText : String)
    (hf : first = FetchOutcome.httpError status errMessage bodyText) :
    (vertexFetchRun first rest).2 = 1 ∧
    handlerIfElse env gOracle first HttpMethod.POST body
      = HandlerResponse.err500 (vertexErrorMessage status errMessage bodyText) := by
  refine ⟨rfl, ?_⟩
  subst hf
  rw [handlerIfElse_post, dispatchIfElse_default env gOracle _ body h1 h2]
  rfl

/-- Claim C3, witness for the amended theorem on a 503 whose body did not
parse as JSON. -/
theorem c3_witness :
    (vertexFetchRun transportFailRaw []).2 = 1 ∧
    handlerIfElse envOk gUnused transportFailRaw HttpMethod.POST bodyDefaultGen
      = HandlerResponse.err500 (vertexErrorMessage 503 none "overloaded") :=
  c3_amended transportFailRaw [] envOk gUnused bodyDefaultGen (by decide) (by decide)
    503 none "overloaded" rfl

/-!
Claim C4.
-/

/-- Claim C4, confirmed.  For every `numImages` input — missing or
non-numeric (`none`, i.e. `parseInt` gave `NaN`), zero, negative, or above
the ceiling — the `sampleCount` placed in the provider payload by revision
1's `handleImagen` and by revision 3's `handleGeneration` is an integer in
1..4.  The clamp (`parseInt(numImages) || 1` then `Math.max(1, Math.min(·,
4))`) has no error path: out-of-range values are silently replaced. -/
theorem c4_sample_count_clamped (body : Request) :
    1 ≤ (imagenPayload body).parameters.sampleCount ∧
    (imagenPayload body).parameters.sampleCount ≤ 4 ∧
    1 ≤ (generationPayload body).parameters.sampleCount ∧
    (generationPayload body).parameters.sampleCount ≤ 4 := by
  have h : ∀ x : Option Int, 1 ≤ clampSampleCount x ∧ clampSampleCount x ≤ 4 := by
    intro x
    unfold clampSampleCount
    refine ⟨le_max_left 1 _, max_le (by norm_num) (min_le_right _ _)⟩
  exact ⟨(h body.numImages).1, (h body.numImages).2, (h body.numImages).1, (h body.numImages).2⟩

/-!
Claim C5.
-/

/-- Claim C5, counterexample.  The claim says a `sampleImageSize` above the
family ceiling (4096 when the maximum tier is 2K) is downgraded to the
family's maximum supported tier.  Revision 3's `handleGeneration` compares
`parseInt(sampleImageSize) === 2048` only, so the hint `"4096"` falls into
the else branch: the payload is sent with the `"1K"` tier — not the `"2K"`
maximum — and the label reads `"1024x1024"`. -/
theorem c5_counterexample :
    generationSize (some "4096") = (some "1K", "1024x1024") ∧
    (generationPayload { bodyDefaultGen with sampleImageSize := some "4096" }).parameters.sampleImageSize
      = some "1K" ∧
    (some "1K" : Option String) ≠ some "2K" :=
  ⟨by rfl, by rfl, by decide⟩

/-- Claim C5, amended.  Above-ceiling hints are downgraded, but the tier
differs by revision: revision 1's `handleImagen` sends the 2K maximum for a
`"4096"` hint while revision 3's `handleGeneration` sends the 1K default.
In both revisions the outbound size label always names the tier actually
sent — the only (parameter, label) pairs are (1K, 1024x1024) and (2K,
2048x2048) — and every record a run returns carries exactly that label,
never the requested resolution. -/
theorem c5_amended (s : Option String) :
    (imagenSize s = ("2K", "2048x2048") ∨ imagenSize s = ("1K", "1024x1024")) ∧
    imagenSize (some "4096") = ("2K", "2048x2048") ∧
    (generationSize s = (none, "1024x1024") ∨ generationSize s = (some "2K", "2048x2048") ∨
      generationSize s = (some "1K", "1024x1024")) ∧
    generationSize (some "4096") = (some "1K", "1024x1024") ∧
    (∀ (env : UploadEnv) (resp : ImagenResponse) (body : Request) (recs : List Record),
      (handleImagen env (FetchOutcome.okJson resp) body).2 = Except.ok recs →
      ∀ r ∈ recs, r.size = (imagenSize body.sampleImageSize).2) ∧
    (∀ (env : UploadEnv) (resp : ImagenResponse) (body : Request) (recs : List Record),
      (handleGeneration env (FetchOutcome.okJson resp) body).2 = Except.ok recs →
      ∀ r ∈ recs, r.size = (generationSize body.sampleImageSize).2) := by
  refine ⟨?_, rfl, ?_, by rfl, ?_, ?_⟩
  · unfold imagenSize
    split_ifs <;> simp
  · cases s with
    | none => exact Or.inl rfl
    | some str =>
      simp only [generationSize]
      split_ifs <;> simp
  · intro env resp body recs hrun r hr
    rw [handleImagen_okJson] at hrun
    cases hp : resp.predictions with
    | none => rw [hp] at hrun; cases hrun
    | some preds =>
      rw [hp] at hrun
      dsimp only at hrun
      exact (uploadAll_ok_fields env _ _ 0 recs hrun r hr).2.2.1
  · intro env resp body recs hrun r hr
    rw [handleGeneration_okJson] at hrun
    cases hp : resp.predictions with
    | none => rw [hp] at hrun; cases hrun
    | some preds =>
      rw [hp] at hrun
      dsimp only at hrun
      exact (uploadAll_ok_fields env _ _ 0 recs hrun r hr).2.2.1

/-- Claim C5, witness for the amended theorem: a concrete 4096-hint run of
revision 1's Imagen handler yields a record labelled with the 2K tier
actually served. -/
theorem c5_witness :
    ({ url := "https://storage.example/u", prompt := some "a red cube", aspectRatio := none,
       size := "2048x2048", mode := some "generate-default" } : Record).size
      = (imagenSize (some "4096")).2 :=
  (c5_amended (some "4096")).2.2.2.2.1 envOk onePredResponse
    { bodyDefaultGen with sampleImageSize := some "4096" } _ rfl _ (List.mem_singleton.mpr rfl)

/-!
Claim C6.
-/

/-- Claim C6, confirmed.  A missing or empty reference-image array makes
revision 1's `handleUpscaling` throw the missing-input validation error
with zero provider calls issued — the guard sits before `vertexFetch`. -/
theorem c6_upscale_missing_images (env : UploadEnv) (oracle : FetchOutcome ImagenResponse)
    (body : Request) (h : body.images = none ∨ body.images = some []) :
    handleUpscaling env oracle body = (0, Except.error "缺少用於放大的圖片") := by
  rcases h with h | h <;> simp [handleUpscaling, h]

/-- Claim C6, witness: the spec's end-to-end scenario 2 — an upscale
request with `upscaleLevel` 4096 and no reference images — fails with the
validation error and zero provider calls, even against an oracle that would
have failed the call. -/
theorem c6_witness :
    handleUpscaling envOk transportFail
      { mode := some "upscale", prompt := none, images := none, image := none,
        numImages := none, aspectRatio := none, sampleImageSize := none,
        upscaleLevel := some 4096 }
      = (0, Except.error "缺少用於放大的圖片") :=
  c6_upscale_missing_images envOk transportFail _ (Or.inl rfl)

/-!
Claim C7.
-/

/-- The Gemini part carrying only the refusal text, used by the C7
fixtures. -/
def refusalText : String :=
  "I cannot create this image because the request conflicts with the safety policy on depictions of real people; please adjust the prompt and try again."

/-- The text-only part of the refusal fixture. -/
def refusalPart : GeminiPart :=
  { inlineData := none, text := some refusalText }

/-- The single candidate of the refusal fixture. -/
def refusalCandidate : GeminiCandidate :=
  { content := some { parts := some [refusalPart] } }

/-- A Gemini response whose single candidate carries a text part and no
image part: a well-formed semantic refusal. -/
def refusalResponse : GeminiResponse :=
  { candidates := some [refusalCandidate] }

/-- A request routed to the NanoBanana (Gemini) path. -/
def bodyNano : Request :=
  { mode := some "generate-nanobanana", prompt := some "a portrait", images := none, image := none,
    numImages := none, aspectRatio := none, sampleImageSize := none, upscaleLevel := none }

set_option maxRecDepth 16384 in
/-- Claim C7, counterexample.  The claim says the surfaced failure message
embeds a truncated excerpt of the refusal text.  The code interpolates the
complete text: for a refusal text over 140 characters long the 500 message
is the fixed prefix followed by the whole text — nothing is truncated. -/
theorem c7_counterexample :
    handlerIfElse envOk (FetchOutcome.okJson refusalResponse) transportFail HttpMethod.POST
      bodyNano = HandlerResponse.err500 ("Gemini 回傳了文字而非圖片: " ++ refusalText) ∧
    140 ≤ refusalText.length := by
  constructor
  · rfl
  · decide

/-- Claim C7, amended.  A well-formed response whose first candidate has a
text part but no inline-image part is treated as a refusal: the call fails,
and the failure message embeds the provider's refusal text in full (the
fixed prefix concatenated with the entire text, with no truncation). -/
theorem c7_amended (env : UploadEnv) (body : Request) (resp : GeminiResponse)
    (c : GeminiCandidate) (cs : List GeminiCandidate) (tp : GeminiPart) (t : String)
    (hc : resp.candidates = some (c :: cs))
    (hno : (geminiParts c).find? geminiHasInline = none)
    (htp : (geminiParts c).find? geminiHasText = some tp)
    (ht : tp.text = some t) :
    (handleNanoBanana env (FetchOutcome.okJson resp) body).2
      = Except.error ("Gemini 回傳了文字而非圖片: " ++ t) := by
  unfold handleNanoBanana
  dsimp only [vertexFetch]
  rw [hc]
  dsimp only
  rw [hno, htp]
  dsimp only
  rw [ht]
  rfl

/-- Claim C7, witness for the amended theorem on the concrete refusal
fixture. -/
theorem c7_witness :
    (handleNanoBanana envOk (FetchOutcome.okJson refusalResponse) bodyNano).2
      = Except.error ("Gemini 回傳了文字而非圖片: " ++ refusalText) :=
  c7_amended envOk bodyNano refusalResponse refusalCandidate [] refusalPart refusalText
    (by rfl) (by rfl) (by decide) (by rfl)

/-!
Claim C8.
-/

/-- Claim C8, confirmed.  The per-image uploads are joined with
`Promise.all`: if any single upload — the save or the make-public step —
fails, the aggregate `saveImagesToStorage` rejects; the handler's catch then
turns the rejection into an error response.  A successful aggregate always
returns one record per input image, so a response never carries a strict
subset of the uploaded records. -/
theorem c8_upload_all_or_nothing (env : UploadEnv) (base64s : List String) (md : Metadata) :
    (∀ j, j < base64s.length → (env.saveOk j = false ∨ env.publicOk j = false) →
      ∃ e, saveImagesToStorage env base64s md = Except.error e) ∧
    (∀ recs, saveImagesToStorage env base64s md = Except.ok recs →
      recs.length = base64s.length) ∧
    (∀ (gOracle : FetchOutcome GeminiResponse) (iOracle : FetchOutcome ImagenResponse)
       (body : Request) (m : String),
      (dispatchIfElse env gOracle iOracle body).2 = Except.error m →
      handlerIfElse env gOracle iOracle HttpMethod.POST body = HandlerResponse.err500 m) := by
  refine ⟨?_, ?_, ?_⟩
  · intro j hj hfail
    have := uploadAll_error_of_fail env md base64s 0 j hj (by simpa using hfail)
    simpa [saveImagesToStorage] using this
  · intro recs h
    exact uploadAll_ok_length env md base64s 0 recs h
  · intro gOracle iOracle body m h
    rw [handlerIfElse_post, h]

/-- Claim C8, witness: with two images and an upload environment whose slot
1 write fails, the aggregate persist rejects. -/
theorem c8_witness :
    ∃ e, saveImagesToStorage envFailSlot1 ["QUJD", "REVG"]
      { prompt := some "a red cube", aspectRatio := none, size := "1024x1024",
        mode := some "generate-default" } = Except.error e :=
  (c8_upload_all_or_nothing envFailSlot1 ["QUJD", "REVG"]
    { prompt := some "a red cube", aspectRatio := none, size := "1024x1024",
      mode := some "generate-default" }).1 1 (by decide) (Or.inl rfl)

/-!
Claim C9.
-/

/-- Claim C9, counterexample.  The claim says a declared content length
above the configured maximum makes the gateway answer 413 before reading
the body.  The handler has no size check at all: for a POST declaring a
gigabyte-scale body it issues no early status (it proceeds straight to
token acquisition and dispatch), and in particular never a 413. -/
theorem c9_counterexample :
    gatewayEarlyStatus HttpMethod.POST 1000000000 = none ∧
    gatewayEarlyStatus HttpMethod.POST 1000000000 ≠ some 413 :=
  ⟨rfl, by decide⟩

/-- Claim C9, amended.  The transport shell enforces no body-size limit:
its pre-dispatch behaviour depends only on the method — 200 for OPTIONS,
405 for non-POST, otherwise proceed — is identical for every declared
content length, and never produces a 413 (any 413 for this endpoint would
have to come from the hosting platform, outside this code). -/
theorem c9_amended (method : HttpMethod) (len1 len2 : Nat) :
    gatewayEarlyStatus method len1 = gatewayEarlyStatus method len2 ∧
    gatewayEarlyStatus method len1 ≠ some 413 := by
  cases method <;> exact ⟨rfl, by simp [gatewayEarlyStatus]⟩

/-!
Claim C10.
-/

/-- Claim C10, confirmed.  Both upscale handlers hand `saveImagesToStorage`
the constant metadata `prompt: "Upscaled Image"`, `aspectRatio: "Original"`,
so every record a successful upscale returns carries those constants; the
handler's result is invariant under any change of the client's prompt,
whose only outbound use is the `prompt || " "` slot of the provider payload
(and the stored-object metadata derived from the constant). -/
theorem c10_upscale_record_constant (env : UploadEnv) (oracle : FetchOutcome ImagenResponse)
    (body : Request) (p q : Option String) :
    handleUpscaling env oracle { body with prompt := p }
      = handleUpscaling env oracle { body with prompt := q } ∧
    handleUpscalingSwitch env oracle { body with prompt := p }
      = handleUpscalingSwitch env oracle { body with prompt := q } ∧
    (∀ recs, (handleUpscaling env oracle body).2 = Except.ok recs →
      ∀ r ∈ recs, r.prompt = some "Upscaled Image" ∧ r.aspectRatio = some "Original") ∧
    (∀ recs, (handleUpscalingSwitch env oracle body).2 = Except.ok recs →
      ∀ r ∈ recs, r.prompt = some "Upscaled Image" ∧ r.aspectRatio = some "Original") ∧
    (∀ (img : RefImage) (rest : List RefImage), body.images = some (img :: rest) →
      ∃ pl, upscalePayload body = some pl ∧
        pl.instances.map UpscaleInstance.prompt = [jsOrStr body.prompt " "]) := by
  refine ⟨rfl, rfl, ?_, ?_, ?_⟩
  · intro recs hrun r hr
    cases hbi : body.images with
    | none => simp [handleUpscaling, hbi] at hrun
    | some imgs =>
      cases imgs with
      | nil => simp [handleUpscaling, hbi] at hrun
      | cons img rest =>
        rw [handleUpscaling_someImage env oracle body img rest hbi] at hrun
        dsimp only at hrun
        cases hv : vertexFetch oracle with
        | error e => rw [hv] at hrun; simp at hrun
        | ok result =>
          rw [hv] at hrun
          dsimp only at hrun
          cases hb : imagenFirstBytes result with
          | none => rw [hb] at hrun; simp at hrun
          | some b =>
            rw [hb] at hrun
            dsimp only at hrun
            have hf := uploadAll_ok_fields env _ _ 0 recs hrun r hr
            exact ⟨hf.1, hf.2.1⟩
  · intro recs hrun r hr
    cases hbi : body.image with
    | none => simp [handleUpscalingSwitch, hbi] at hrun
    | some img =>
      by_cases he : img.base64Data = ""
      · simp [handleUpscalingSwitch, hbi, he] at hrun
      · rw [handleUpscalingSwitch_someImage env oracle body img hbi he] at hrun
        dsimp only at hrun
        cases hv : vertexFetch oracle with
        | error e => rw [hv] at hrun; simp at hrun
        | ok result =>
          rw [hv] at hrun
          dsimp only at hrun
          cases hb : imagenFirstBytes result with
          | none => rw [hb] at hrun; simp at hrun
          | some b =>
            rw [hb] at hrun
            dsimp only at hrun
            have hf := uploadAll_ok_fields env _ _ 0 recs hrun r hr
            exact ⟨hf.1, hf.2.1⟩
  · intro img rest hbi
    refine ⟨?_, ?_, ?_⟩
    · exact { instances := [{ prompt := jsOrStr body.prompt " ", imageBytesBase64 := img.base64Data }], parameters := { sampleCount := 1, mode := "upscale", upscaleFactor := if jsOrInt body.upscaleLevel 2048 > 2048 then "x4" else "x2" } }
    · unfold upscalePayload
      rw [hbi]
    · rfl

/-- Claim C10, witness: a concrete successful upscale run is unchanged when
the client prompt changes, and its record carries the constant prompt and
aspect labels. -/
theorem c10_witness :
    handleUpscaling envOk
      (FetchOutcome.okJson { predictions := some [{ bytesBase64Encoded := "WFla" }] })
      { mode := some "upscale", prompt := some "first prompt",
        images := some [{ base64Data := "QUJD", mimeType := "image/png" }], image := none,
        numImages := none, aspectRatio := some "16:9", sampleImageSize := none,
        upscaleLevel := some 4096 }
      = handleUpscaling envOk
          (FetchOutcome.okJson { predictions := some [{ bytesBase64Encoded := "WFla" }] })
          { mode := some "upscale", prompt := some "second prompt",
            images := some [{ base64Data := "QUJD", mimeType := "image/png" }], image := none,
            numImages := none, aspectRatio := some "16:9", sampleImageSize := none,
            upscaleLevel := some 4096 } ∧
    ({ url := "https://storage.example/u", prompt := some "Upscaled Image",
       aspectRatio := some "Original", size := "4096px (Upscaled)",
       mode := some "upscale" } : Record).prompt = some "Upscaled Image" ∧
    ({ url := "https://storage.example/u", prompt := some "Upscaled Image",
       aspectRatio := some "Original", size := "4096px (Upscaled)",
       mode := some "upscale" } : Record).aspectRatio = some "Original" := by
  have h := c10_upscale_record_constant envOk
    (FetchOutcome.okJson { predictions := some [{ bytesBase64Encoded := "WFla" }] })
    { mode := some "upscale", prompt := some "x",
      images := some [{ base64Data := "QUJD", mimeType := "image/png" }], image := none,
      numImages := none, aspectRatio := some "16:9", sampleImageSize := none,
      upscaleLevel := some 4096 } (some "first prompt") (some "second prompt")
  refine ⟨h.1, ?_⟩
  have hr := h.2.2.1
    [{ url := "https://storage.example/u", prompt := some "Upscaled Image",
       aspectRatio := some "Original", size := "4096px (Upscaled)", mode := some "upscale" }]
    (by rfl) _ (List.mem_singleton.mpr rfl)
  exact ⟨hr.1, hr.2⟩
